import Mathlib

/-!
Verification of the mood-based recommendation engine of the auralys-api
backend (FastAPI/SQLAlchemy), against its natural-language specification.

The Python sources are shallowly embedded:
* `app/schemas/recommendation_dto.py` : plain data structures;
* `app/services/recommendation_service.py` : pure Lean functions, with the
  database session threaded explicitly as a list of `Recommendation` rows;
* `app/repositories/recommendation_repository.py` : list-manipulating
  functions over that explicit state.

Modelling conventions:
* Python `float` scores and rates are modelled with `ℚ` (the code only ever
  adds, divides and compares decimal constants);
* `datetime` timestamps are modelled as integers counting hours, so the
  6-hour deduplication window is `now - 6` and a `days`-long statistics
  window is `now - 24 * days`;
* Python `round(x, n)` (banker's rounding, half to even) is `pyRound2`;
* a Pydantic field that distinguishes "unset" from "explicitly null"
  (`model_dump(exclude_unset=True)`) is an `Option (Option Bool)`:
  `none` = unset, `some none` = explicitly null, `some (some b)` = value;
* Python truthiness of optional strings and integers (`if request.mood_id`,
  `elif request.mood_level`) is `strTruthy` and `intTruthy`;
* `list.sort(key=..., reverse=True)` (a stable sort) is `List.mergeSort`
  with the reversed comparison, which is also stable, hence extensionally
  identical on ties.
-/

namespace Auralys

/-- `ActivitySuggestion` from `app/schemas/recommendation_dto.py`.
`estimated_time` is minutes; `mood_impact`, `difficulty`, `category` are
the free-form / literal string tags of the DTO. -/
structure ActivitySuggestion where
  activity : String
  description : String
  estimated_time : ℤ
  mood_impact : String
  difficulty : String
  category : String
deriving DecidableEq, Repr

/-- One mood-level bucket of the activity database: the "immediate" and
"longer" lists. -/
structure MoodActivities where
  immediate : List ActivitySuggestion
  longer : List ActivitySuggestion
deriving DecidableEq, Repr

/-- Level-1 bucket of `RecommendationService._initialize_activity_database`. -/
def bucket1 : MoodActivities where
  immediate := [
    ⟨"Respirer profondément pendant 5 minutes",
     "Exercice de respiration pour calmer l\x27anxiété", 5, "calming", "easy", "mental"⟩,
    ⟨"Écouter une musique douce",
     "Musique apaisante pour réconforter", 15, "calming", "easy", "mental"⟩,
    ⟨"Prendre une douche chaude",
     "L\x27eau chaude peut aider à se détendre", 15, "calming", "easy", "physical"⟩]
  longer := [
    ⟨"Appeler un proche de confiance",
     "Parler avec quelqu\x27un peut aider", 30, "positive", "medium", "social"⟩,
    ⟨"Regarder un film réconfortant",
     "Distraction positive avec un contenu familier", 90, "positive", "easy", "mental"⟩]

/-- Level-2 bucket of the activity database. -/
def bucket2 : MoodActivities where
  immediate := [
    ⟨"Faire une courte promenade",
     "Marcher aide à changer d\x27environnement", 15, "positive", "easy", "physical"⟩,
    ⟨"Tenir un journal de gratitude",
     "Noter 3 choses positives de la journée", 10, "positive", "easy", "mental"⟩,
    ⟨"Boire une tisane chaude",
     "Moment de réconfort et de chaleur", 10, "calming", "easy", "physical"⟩]
  longer := [
    ⟨"Pratiquer du yoga doux",
     "Étirements et détente pour le corps et l\x27esprit", 30, "calming", "medium", "physical"⟩,
    ⟨"Cuisiner un plat réconfortant",
     "Activité créative et nourrissante", 45, "positive", "medium", "creative"⟩]

/-- Level-3 (neutral) bucket of the activity database; also the fallback for
any mood level outside 1..5. -/
def bucket3 : MoodActivities where
  immediate := [
    ⟨"Faire 10 minutes de méditation",
     "Moment de centrage et de clarté", 10, "calming", "medium", "mental"⟩,
    ⟨"Organiser son espace de travail",
     "Activité productive qui donne du contrôle", 20, "positive", "easy", "mental"⟩,
    ⟨"Lire quelques pages d\x27un livre",
     "Stimulation mentale douce", 20, "positive", "easy", "mental"⟩]
  longer := [
    ⟨"Apprendre quelque chose de nouveau en ligne",
     "Cours ou tutoriel sur un sujet d\x27intérêt", 60, "positive", "medium", "mental"⟩,
    ⟨"Planifier une activité future",
     "Donner quelque chose à anticiper positivement", 30, "positive", "medium", "mental"⟩]

/-- Level-4 bucket of the activity database. -/
def bucket4 : MoodActivities where
  immediate := [
    ⟨"Partager sa joie avec un ami",
     "Message ou appel pour partager les bonnes nouvelles", 15, "positive", "easy", "social"⟩,
    ⟨"Danser sur sa musique préférée",
     "Exprimer sa joie par le mouvement", 10, "energizing", "easy", "physical"⟩,
    ⟨"Faire un compliment à quelqu\x27un",
     "Répandre la positivité autour de soi", 5, "positive", "easy", "social"⟩]
  longer := [
    ⟨"Commencer un projet créatif",
     "Canaliser l\x27énergie positive dans la création", 60, "positive", "medium", "creative"⟩,
    ⟨"Planifier une sortie avec des amis",
     "Organiser un moment social agréable", 30, "positive", "medium", "social"⟩]

/-- Level-5 bucket of the activity database. -/
def bucket5 : MoodActivities where
  immediate := [
    ⟨"Faire de l\x27exercice énergique",
     "Canaliser l\x27énergie positive dans le sport", 30, "energizing", "medium", "physical"⟩,
    ⟨"Aider quelqu\x27un dans le besoin",
     "Utiliser sa positivité pour aider les autres", 30, "positive", "medium", "social"⟩,
    ⟨"Prendre des photos de moments heureux",
     "Capturer et préserver ces bons moments", 15, "positive", "easy", "creative"⟩]
  longer := [
    ⟨"Organiser une activité surprise pour un proche",
     "Partager sa joie en créant du bonheur pour les autres", 120, "positive", "hard", "social"⟩,
    ⟨"Démarrer un nouveau hobby",
     "Utiliser l\x27énergie positive pour explorer de nouveaux intérêts", 90, "positive", "medium", "creative"⟩]

/-- `self.activity_database.get(mood_level, self.activity_database[3])`:
the nested dictionary keyed by mood level, with the level-3 default. -/
def activity_database (mood_level : ℤ) : MoodActivities :=
  if mood_level = 1 then bucket1
  else if mood_level = 2 then bucket2
  else if mood_level = 3 then bucket3
  else if mood_level = 4 then bucket4
  else if mood_level = 5 then bucket5
  else bucket3

/-- `RecommendationService._get_activities_for_mood`. -/
def get_activities_for_mood (mood_level time_available : ℤ) : List ActivitySuggestion :=
  let mood_activities := activity_database mood_level
  let activities :=
    if time_available ≤ 20 then mood_activities.immediate
    else mood_activities.immediate ++ mood_activities.longer
  let suitable_activities := activities.filter (fun a => a.estimated_time ≤ time_available)
  if suitable_activities.isEmpty then activities.take 2 else suitable_activities

/-- One step of the category-diversity pass of
`RecommendationService._select_diverse_activities`: the loop body
`if activity.category not in categories_used and len(selected) < count`.
State is `(selected, categories_used)`, the set kept as an insertion-order
list (only membership is consulted). -/
def diverse_step (count : ℕ) (st : List ActivitySuggestion × List String)
    (a : ActivitySuggestion) : List ActivitySuggestion × List String :=
  if a.category ∉ st.2 ∧ st.1.length < count then
    (st.1 ++ [a], st.2 ++ [a.category])
  else st

/-- `RecommendationService._select_diverse_activities`.  The trailing
`while len(selected) < count and remaining_activities:` loop pops from the
front of `remaining_activities`, i.e. appends the first
`count - len(selected)` remaining activities in order. -/
def select_diverse_activities (activities : List ActivitySuggestion) (count : ℕ) :
    List ActivitySuggestion :=
  if activities.length ≤ count then activities
  else
    let selected := (activities.foldl (diverse_step count) ([], [])).1
    let remaining_activities := activities.filter (fun a => a ∉ selected)
    selected ++ remaining_activities.take (count - selected.length)

/-- `RecommendationService._calculate_confidence_score`. -/
def calculate_confidence_score (mood_level : ℤ) (activity : ActivitySuggestion) : ℚ :=
  let base_score : ℚ := 0.7
  let base_score :=
    if mood_level = 1 ∨ mood_level = 2 then
      (if activity.mood_impact = "calming" then base_score + 0.2 else base_score)
    else if mood_level = 4 ∨ mood_level = 5 then
      (if activity.mood_impact = "positive" ∨ activity.mood_impact = "energizing" then
        base_score + 0.2
      else base_score)
    else base_score
  let base_score := if activity.difficulty = "easy" then base_score + 0.1 else base_score
  min 1 base_score

/-- `Recommendation` row from `app/db/models/recommendation.py`.
`timestamp` counts hours (see the header); `confidence_score` is nullable.
The `most_recommended_activity` statistic and the `user`/`mood_entry`
relations are not needed by any claim. -/
structure Recommendation where
  id : String
  user_id : ℤ
  mood_id : Option String
  suggested_activity : String
  timestamp : ℤ
  was_helpful : Option Bool
  recommendation_type : String
  confidence_score : Option ℚ
deriving DecidableEq, Repr

/-- `User` from `app/db/models/user.py`, restricted to the fields the
recommendation core reads (`id`, the GDPR `consent` flag, used as a
truthy value by `if not user.consent`). -/
structure User where
  id : ℤ
  consent : Bool
deriving DecidableEq, Repr

/-- `MoodEntry` (external collaborator), restricted to the fields read by the
recommendation core: `id`, `user_id`, `mood` (integer 1-5). -/
structure MoodEntry where
  id : String
  user_id : ℤ
  mood : ℤ
deriving DecidableEq, Repr

/-- `RecommendationGenerateRequest` from `app/schemas/recommendation_dto.py`
(the `activity_preferences` field is never read by the service). Pydantic
validation bounds (`mood_level` in 1..5, `time_available` in 5..240) appear
as hypotheses where a claim needs them. -/
structure RecommendationGenerateRequest where
  mood_id : Option String
  mood_level : Option ℤ
  time_available : Option ℤ
deriving DecidableEq, Repr

/-- `RecommendationUpdate` from `app/schemas/recommendation_dto.py`, seen
through `model_dump(exclude_unset=True)`: `none` = field not supplied,
`some none` = explicitly `null`, `some (some b)` = explicit boolean. -/
structure RecommendationUpdate where
  was_helpful : Option (Option Bool)
deriving DecidableEq, Repr

/-- The error taxonomy: the HTTP status codes raised by the service layer
(`403`, `404`, `400`) plus a failure of a persistence call. -/
inductive ApiError where
  | forbidden
  | notFound
  | invalidRequest
  | persistenceFailure
deriving DecidableEq, Repr

/-- Python truthiness of an optional string (`if request.mood_id`):
present and non-empty. -/
def strTruthy : Option String → Bool
  | some s => !s.isEmpty
  | none => false

/-- Python truthiness of an optional integer (`elif request.mood_level`):
present and non-zero. -/
def intTruthy : Option ℤ → Bool
  | some n => n ≠ 0
  | none => false

/-- Python `x or d` on an optional integer
(`request.time_available or 30`). -/
def orDefault (o : Option ℤ) (d : ℤ) : ℤ :=
  match o with
  | some n => if n ≠ 0 then n else d
  | none => d

/-- Python `round` to an integer: nearest, ties to even (banker's
rounding). -/
def pyRoundInt (q : ℚ) : ℤ :=
  let f := ⌊q⌋
  let r := q - f
  if r < 1 / 2 then f
  else if 1 / 2 < r then f + 1
  else if f % 2 = 0 then f else f + 1

/-- Python `round(q, 2)`. -/
def pyRound2 (q : ℚ) : ℚ := (pyRoundInt (q * 100) : ℚ) / 100

/-! ## Repository layer (`app/repositories/recommendation_repository.py`)

The SQLAlchemy session is the explicit list `db` of `Recommendation` rows,
kept in insertion order; `query(...).filter(...)` is `List.filter` /
`List.find?`. -/

/-- `RecommendationRepository.get_recommendation_by_id`:
`.filter(Recommendation.id == recommendation_id).first()`. -/
def get_recommendation_by_id (db : List Recommendation) (recommendation_id : String) :
    Option Recommendation :=
  db.find? (fun r => r.id = recommendation_id)

/-- Application of `RecommendationUpdate` fields to a row: the
`for field, value in update_data.items(): setattr(...)` loop, where
`update_data = feedback_data.model_dump(exclude_unset=True)`. -/
def applyFeedbackUpdate (r : Recommendation) (feedback_data : RecommendationUpdate) :
    Recommendation :=
  match feedback_data.was_helpful with
  | none => r
  | some v => { r with was_helpful := v }

/-- Replace the first row with the given id (the ORM mutates the single
fetched row in place; ids are primary keys). -/
def replaceFirstById (recommendation_id : String) (r' : Recommendation) :
    List Recommendation → List Recommendation
  | [] => []
  | r :: rest =>
    if r.id = recommendation_id then r' :: rest
    else r :: replaceFirstById recommendation_id r' rest

/-- `RecommendationRepository.update_recommendation_feedback`: fetch by id,
apply the update, commit.  Returns the new session state and the value the
Python function returns (`None` when the row does not exist). -/
def repo_update_recommendation_feedback (db : List Recommendation)
    (recommendation_id : String) (feedback_data : RecommendationUpdate) :
    List Recommendation × Option Recommendation :=
  match get_recommendation_by_id db recommendation_id with
  | none => (db, none)
  | some r =>
    let r' := applyFeedbackUpdate r feedback_data
    (replaceFirstById recommendation_id r' db, some r')

/-- `RecommendationRepository.get_recent_recommendations` with `hours = 6`:
rows of the user whose `timestamp >= now - 6h`. -/
def get_recent_recommendations (db : List Recommendation) (user_id : ℤ) (now : ℤ) :
    List Recommendation :=
  db.filter (fun r => r.user_id = user_id ∧ now - 6 ≤ r.timestamp)

/-- The dictionary returned by
`RecommendationRepository.get_recommendation_stats` (minus
`most_recommended_activity`, which depends on Python set-iteration order
and is not touched by any claim). -/
structure RecommendationStats where
  total_recommendations : ℕ
  helpful_count : ℕ
  not_helpful_count : ℕ
  pending_feedback : ℕ
  helpfulness_rate : ℚ
deriving DecidableEq, Repr

/-- `RecommendationRepository.get_recommendation_stats`: rows of the user
within the trailing `days` window (`timestamp >= now - days`), counted by
feedback value; the helpfulness rate is the *fraction*
`helpful / (helpful + not_helpful)`, rounded to 2 decimals. -/
def repo_get_recommendation_stats (db : List Recommendation) (user_id : ℤ)
    (now days : ℤ) : RecommendationStats :=
  let recommendations :=
    db.filter (fun r => r.user_id = user_id ∧ now - 24 * days ≤ r.timestamp)
  if recommendations.isEmpty then ⟨0, 0, 0, 0, 0⟩
  else
    let helpful_count := (recommendations.filter (fun r => r.was_helpful = some true)).length
    let not_helpful_count := (recommendations.filter (fun r => r.was_helpful = some false)).length
    let pending_feedback := (recommendations.filter (fun r => r.was_helpful = none)).length
    let total_with_feedback := helpful_count + not_helpful_count
    let helpfulness_rate : ℚ :=
      if 0 < total_with_feedback then (helpful_count : ℚ) / (total_with_feedback : ℚ) else 0
    ⟨recommendations.length, helpful_count, not_helpful_count, pending_feedback,
     pyRound2 helpfulness_rate⟩

/-! ## Service layer (`app/services/recommendation_service.py`) -/

/-- `RecommendationService.update_recommendation_feedback`: 404 when the row
does not exist, 403 when it belongs to another user, otherwise delegate to
the repository.  Returns the new session state and the outcome. -/
def service_update_recommendation_feedback (db : List Recommendation)
    (recommendation_id : String) (user_id : ℤ) (feedback : RecommendationUpdate) :
    List Recommendation × Except ApiError Recommendation :=
  match get_recommendation_by_id db recommendation_id with
  | none => (db, .error .notFound)
  | some recommendation =>
    if recommendation.user_id ≠ user_id then (db, .error .forbidden)
    else
      match repo_update_recommendation_feedback db recommendation_id feedback with
      | (db', some updated) => (db', .ok updated)
      | (db', none) => (db', .error .notFound)

/-- `RecommendationService.get_recommendation_stats`: validates the window
length (1..365 days) and passes the repository statistics through (the
formatted `period_start`/`period_end` strings carry no claim content). -/
def service_get_recommendation_stats (db : List Recommendation) (user_id : ℤ)
    (now days : ℤ) : Except ApiError RecommendationStats :=
  if days ≤ 0 ∨ 365 < days then .error .invalidRequest
  else .ok (repo_get_recommendation_stats db user_id now days)

/-- Mood-level resolution inside
`RecommendationService.generate_recommendations_from_mood` (lines 274-292):
a truthy `mood_id` is looked up in the external mood store (404 when absent
or owned by another user), else a truthy `mood_level` is used directly,
else 400.  The route wiring always supplies a mood repository, so the
`self.mood_repository` guard is always true. -/
def resolveMoodLevel (moodDb : List MoodEntry) (user : User)
    (request : RecommendationGenerateRequest) : Except ApiError ℤ :=
  if strTruthy request.mood_id then
    match moodDb.find? (fun m => some m.id = request.mood_id) with
    | none => .error .notFound
    | some mood_entry =>
      if mood_entry.user_id ≠ user.id then .error .notFound
      else .ok mood_entry.mood
  else if intTruthy request.mood_level then
    .ok (request.mood_level.getD 0)
  else .error .invalidRequest

/-- The candidate-selection pipeline of
`generate_recommendations_from_mood` (lines 300-315): catalog lookup with
time filter, recency filter with its two-activity fallback, then diversity
selection of `min 3 |pool|` activities. -/
def selectPipeline (mood_level time_available : ℤ) (recent_activities : List String) :
    List ActivitySuggestion :=
  let activities := get_activities_for_mood mood_level time_available
  let available_activities := activities.filter (fun a => a.activity ∉ recent_activities)
  let available_activities :=
    if available_activities.isEmpty then activities.take 2 else available_activities
  select_diverse_activities available_activities (min 3 available_activities.length)

/-- The persistence loop of `generate_recommendations_from_mood`
(lines 317-328): one `create_recommendation` (insert + commit) per selected
activity.  `idGen i` supplies the UUID of the `i`-th insert; `createFails i`
makes the `i`-th persistence call raise (each call is atomic: a failing call
writes nothing, but the commits of earlier iterations persist). -/
def persistSelected (user_id : ℤ) (mood_id : Option String) (mood_level now : ℤ)
    (idGen : ℕ → String) (createFails : ℕ → Bool) :
    List ActivitySuggestion → ℕ → List Recommendation → List Recommendation →
    List Recommendation × Except ApiError (List Recommendation)
  | [], _, db, acc => (db, .ok acc)
  | activity :: rest, i, db, acc =>
    if createFails i then (db, .error .persistenceFailure)
    else
      let r : Recommendation :=
        { id := idGen i
          user_id := user_id
          mood_id := mood_id
          suggested_activity := activity.activity
          timestamp := now
          was_helpful := none
          recommendation_type := "mood_based"
          confidence_score := some (calculate_confidence_score mood_level activity) }
      persistSelected user_id mood_id mood_level now idGen createFails
        rest (i + 1) (db ++ [r]) (acc ++ [r])

/-- `RecommendationService.generate_recommendations_from_mood`: consent
check, mood resolution, 6-hour recency fetch, selection pipeline, then the
persistence loop.  Returns the final session state together with the
outcome (the created rows, or the raised error). -/
def generate_recommendations_from_mood (db : List Recommendation)
    (moodDb : List MoodEntry) (user : User) (request : RecommendationGenerateRequest)
    (now : ℤ) (idGen : ℕ → String) (createFails : ℕ → Bool) :
    List Recommendation × Except ApiError (List Recommendation) :=
  if !user.consent then (db, .error .forbidden)
  else
    match resolveMoodLevel moodDb user request with
    | .error e => (db, .error e)
    | .ok mood_level =>
      let recent_activities :=
        (get_recent_recommendations db user.id now).map (·.suggested_activity)
      let selected_activities :=
        selectPipeline mood_level (orDefault request.time_available 30) recent_activities
      persistSelected user.id request.mood_id mood_level now idGen createFails
        selected_activities 0 db []

/-! ## Bulk feedback route (`app/api/routes/recommendation_routes.py`) -/

/-- One element of `BulkFeedbackUpdate.feedbacks`: a JSON dictionary read
with `.get("recommendation_id")` and `.get("was_helpful")`. -/
structure FeedbackItem where
  recommendation_id : Option String
  was_helpful : Option Bool
deriving DecidableEq, Repr

/-- The per-item body of `update_bulk_feedback`.  A malformed item (falsy
id or null `was_helpful`) counts an error directly.  A well-formed item is
passed to the service, whose call runs to completion (committing its write
when it succeeds) — but the route then `await`s the returned value of this
*synchronous* (non-coroutine) method, which raises `TypeError` before
`results["updated"] += 1`; the bare `except Exception` catches that
`TypeError` exactly like an `HTTPException` from the call itself, so both
the success and the failure of the service call land in `errors`, and
`updated` is never incremented. -/
def bulkStep (user_id : ℤ) (st : List Recommendation × ℕ × ℕ) (item : FeedbackItem) :
    List Recommendation × ℕ × ℕ :=
  let (db, updated, errors) := st
  if strTruthy item.recommendation_id ∧ item.was_helpful ≠ none then
    match service_update_recommendation_feedback db (item.recommendation_id.getD "")
        user_id ⟨some item.was_helpful⟩ with
    | (db', .ok _) => (db', updated, errors + 1)
    | (db', .error _) => (db', updated, errors + 1)
  else (db, updated, errors + 1)

/-- `update_bulk_feedback`: fold the per-item body over the batch, starting
from `{"updated": 0, "errors": 0}`. -/
def update_bulk_feedback (db : List Recommendation) (user_id : ℤ)
    (feedbacks : List FeedbackItem) : List Recommendation × ℕ × ℕ :=
  feedbacks.foldl (bulkStep user_id) (db, 0, 0)

/-! ## Feedback summary breakdown
(`RecommendationService.get_feedback_summary`, lines 509-537) -/

/-- One ranked entry of `activity_rates`: activity name, helpfulness rate in
percent (not rounded in the source), sample count. -/
structure ActivityRate where
  activity : String
  rate : ℚ
  total_feedback : ℕ
deriving DecidableEq, Repr

/-- Keys of the `activity_feedback` dictionary: the distinct
`suggested_activity` values in first-occurrence order (Python dict
insertion order). -/
def activityKeys (recent_recommendations : List Recommendation) : List String :=
  recent_recommendations.foldl
    (fun acc r => if r.suggested_activity ∈ acc then acc else acc ++ [r.suggested_activity])
    []

/-- The `activity_rates` list of `get_feedback_summary`: for each activity
with at least 2 feedback samples, its rate `helpful / total * 100`.  The
`helpful` counter follows the truthiness test `if reco.was_helpful:`. -/
def activity_rates (recent_recommendations : List Recommendation) : List ActivityRate :=
  (activityKeys recent_recommendations).filterMap (fun activity =>
    let total := (recent_recommendations.filter
      (fun r => r.suggested_activity = activity)).length
    let helpful := (recent_recommendations.filter
      (fun r => r.suggested_activity = activity ∧ r.was_helpful = some true)).length
    if 2 ≤ total then some ⟨activity, (helpful : ℚ) / (total : ℚ) * 100, total⟩
    else none)

/-- `activity_rates.sort(key=lambda x: x["rate"], reverse=True)`: a stable
sort by rate, descending. -/
def sorted_activity_rates (recent_recommendations : List Recommendation) :
    List ActivityRate :=
  (activity_rates recent_recommendations).mergeSort (fun a b => b.rate ≤ a.rate)

/-- `"most_helpful_activities": activity_rates[:3]`. -/
def most_helpful_activities (recent_recommendations : List Recommendation) :
    List ActivityRate :=
  (sorted_activity_rates recent_recommendations).take 3

/-- `"least_helpful_activities": activity_rates[-3:] if len(activity_rates) > 3 else []`. -/
def least_helpful_activities (recent_recommendations : List Recommendation) :
    List ActivityRate :=
  let sorted := sorted_activity_rates recent_recommendations
  if 3 < sorted.length then sorted.drop (sorted.length - 3) else []

/-! ## Helper lemmas -/

/-- Closed form of the confidence score: base 0.7, a single +0.2 bonus for a
matched mood impact, +0.1 for easy difficulty, clamped at 1. -/
lemma calculate_confidence_score_eq (mood_level : ℤ) (a : ActivitySuggestion) :
    calculate_confidence_score mood_level a =
      min 1 (0.7
        + (if ((mood_level = 1 ∨ mood_level = 2) ∧ a.mood_impact = "calming")
              ∨ ((mood_level = 4 ∨ mood_level = 5)
                  ∧ (a.mood_impact = "positive" ∨ a.mood_impact = "energizing"))
           then (0.2 : ℚ) else 0)
        + (if a.difficulty = "easy" then (0.1 : ℚ) else 0)) := by
  unfold calculate_confidence_score
  split_ifs <;>
    first
    | omega
    | (norm_num; done)
    | (simp_all; done)
    | (simp_all; omega)

/-- The confidence score always lies between 0.7 and 1. -/
lemma calculate_confidence_score_bounds (mood_level : ℤ) (a : ActivitySuggestion) :
    0.7 ≤ calculate_confidence_score mood_level a ∧
      calculate_confidence_score mood_level a ≤ 1 := by
  rw [calculate_confidence_score_eq]
  constructor
  · apply le_min_iff.mpr
    constructor
    · norm_num
    · split_ifs <;> norm_num
  · exact min_le_left _ _

/-- C7: The confidence score of a (mood level, activity) pair equals base
0.7, plus 0.2 if the mood level is 1 or 2 and the mood impact is calming, or
the mood level is 4 or 5 and the mood impact is positive or energizing, plus
0.1 for easy difficulty, clamped to at most 1.0; consequently the result
always lies in [0, 1], and a calming easy activity scores strictly higher at
mood level 1 than an energizing hard one. -/
theorem confidence_score_spec (mood_level : ℤ) (a : ActivitySuggestion) :
    calculate_confidence_score mood_level a =
      min 1 (0.7
        + (if ((mood_level = 1 ∨ mood_level = 2) ∧ a.mood_impact = "calming")
              ∨ ((mood_level = 4 ∨ mood_level = 5)
                  ∧ (a.mood_impact = "positive" ∨ a.mood_impact = "energizing"))
           then (0.2 : ℚ) else 0)
        + (if a.difficulty = "easy" then (0.1 : ℚ) else 0))
    ∧ 0 ≤ calculate_confidence_score mood_level a
    ∧ calculate_confidence_score mood_level a ≤ 1
    ∧ (∀ b c : ActivitySuggestion,
        b.mood_impact = "calming" → b.difficulty = "easy" →
        c.mood_impact = "energizing" → c.difficulty = "hard" →
        calculate_confidence_score 1 c < calculate_confidence_score 1 b) := by
  obtain ⟨hlo, hhi⟩ := calculate_confidence_score_bounds mood_level a
  refine ⟨calculate_confidence_score_eq mood_level a, ?_, hhi, ?_⟩
  · calc (0 : ℚ) ≤ 0.7 := by norm_num
    _ ≤ _ := hlo
  · intro b c hb1 hb2 hc1 hc2
    rw [calculate_confidence_score_eq, calculate_confidence_score_eq]
    rw [hb1, hb2, hc1, hc2]
    norm_num
    rw [if_neg (by decide), if_neg (by decide)]
    norm_num

/-- C7 witness: the scorer evaluated at two concrete level-1 activities, a
calming easy one and an energizing hard one. -/
theorem confidence_score_spec_witness :
    calculate_confidence_score 1
        ⟨"marche", "marche rapide", 10, "energizing", "hard", "physical"⟩ <
      calculate_confidence_score 1
        ⟨"respiration", "respiration lente", 5, "calming", "easy", "mental"⟩ :=
  (confidence_score_spec 1
      ⟨"respiration", "respiration lente", 5, "calming", "easy", "mental"⟩).2.2.2
    ⟨"respiration", "respiration lente", 5, "calming", "easy", "mental"⟩
    ⟨"marche", "marche rapide", 10, "energizing", "hard", "physical"⟩
    rfl rfl rfl rfl

/-- Counting rows by feedback value is counting the feedback values. -/
lemma length_filter_feedback (l : List Recommendation) (v : Option Bool) :
    (l.filter (fun r => r.was_helpful = v)).length =
      (l.map (fun r => r.was_helpful)).countP (fun x => x = v) := by
  rw [List.countP_map, ← List.countP_eq_length_filter]
  rfl

/-- Python `round(0.5, 2)` is exactly one half. -/
lemma pyRound2_half : pyRound2 ((1 : ℚ) / 2) = 1 / 2 := by
  norm_num [pyRound2, pyRoundInt]

/-- C1 (amended): for a user whose recommendations in the statistics window
are exactly one helpful, one not helpful and one pending,
`get_recommendation_stats` reports `helpful_count = 1`,
`not_helpful_count = 1`, `pending_feedback = 1` and a helpfulness rate of
0.5 — the *fraction* (not the percentage) of feedback-confirmed
recommendations marked helpful, rounded to two decimals. -/
theorem stats_scenario_counts_and_rate (db : List Recommendation)
    (user_id now days : ℤ) (h1 : 0 < days) (h2 : days ≤ 365)
    (hperm : ((db.filter
        (fun r => r.user_id = user_id ∧ now - 24 * days ≤ r.timestamp)).map
          (fun r => r.was_helpful)).Perm [some true, some false, none]) :
    service_get_recommendation_stats db user_id now days =
      .ok ⟨3, 1, 1, 1, 1 / 2⟩ := by
  unfold service_get_recommendation_stats
  rw [if_neg (by omega)]
  unfold repo_get_recommendation_stats
  have hlen : (db.filter
      (fun r => r.user_id = user_id ∧ now - 24 * days ≤ r.timestamp)).length = 3 := by
    have h := hperm.length_eq
    simpa using h
  have hne : (db.filter
      (fun r => r.user_id = user_id ∧ now - 24 * days ≤ r.timestamp)).isEmpty = false := by
    cases hrecs' : db.filter
        (fun r => r.user_id = user_id ∧ now - 24 * days ≤ r.timestamp) with
    | nil => rw [hrecs'] at hlen; simp at hlen
    | cons a l => simp
  have hcount : ∀ v : Option Bool,
      ((db.filter
          (fun r => r.user_id = user_id ∧ now - 24 * days ≤ r.timestamp)).filter
            (fun r => r.was_helpful = v)).length =
        ([some true, some false, none].countP (fun x => x = v)) := by
    intro v
    rw [length_filter_feedback, hperm.countP_eq]
  have hhelp : ((db.filter
      (fun r => r.user_id = user_id ∧ now - 24 * days ≤ r.timestamp)).filter
        (fun r => r.was_helpful = some true)).length = 1 := by
    rw [hcount]; decide
  have hnot : ((db.filter
      (fun r => r.user_id = user_id ∧ now - 24 * days ≤ r.timestamp)).filter
        (fun r => r.was_helpful = some false)).length = 1 := by
    rw [hcount]; decide
  have hpend : ((db.filter
      (fun r => r.user_id = user_id ∧ now - 24 * days ≤ r.timestamp)).filter
        (fun r => r.was_helpful = none)).length = 1 := by
    rw [hcount]; decide
  dsimp only
  rw [hne]
  simp only [Bool.false_eq_true, if_false, hhelp, hnot, hpend, hlen]
  norm_num [pyRound2_half]

/-- C1 counterexample: in the concrete scenario (one helpful, one not
helpful, one pending) the reported helpfulness rate is the fraction 0.5,
not the percentage 50.0 claimed by the specification. -/
theorem stats_rate_is_fraction_counterexample :
    service_get_recommendation_stats
      [⟨"r1", 7, none, "Respiration", 0, some true, "mood_based", none⟩,
       ⟨"r2", 7, none, "Musique", 0, some false, "mood_based", none⟩,
       ⟨"r3", 7, none, "Douche", 0, none, "mood_based", none⟩] 7 0 30 =
      Except.ok ⟨3, 1, 1, 1, 1 / 2⟩ ∧ ((1 : ℚ) / 2) ≠ 50 := by
  constructor
  · norm_num +decide [service_get_recommendation_stats, repo_get_recommendation_stats,
      pyRound2, pyRoundInt, List.filter]
  · norm_num

/-- C1 witness: the amended statement applied to a concrete four-row store
(three rows of user 5 in the window plus one row of another user). -/
theorem stats_scenario_counts_and_rate_witness :
    service_get_recommendation_stats
      [⟨"w1", 5, none, "A", -10, some true, "mood_based", none⟩,
       ⟨"x9", 9, none, "Z", 0, some true, "mood_based", none⟩,
       ⟨"w2", 5, none, "B", -20, some false, "mood_based", none⟩,
       ⟨"w3", 5, none, "C", 0, none, "mood_based", none⟩] 5 0 30 =
      Except.ok ⟨3, 1, 1, 1, 1 / 2⟩ :=
  stats_scenario_counts_and_rate _ 5 0 30 (by norm_num) (by norm_num) (by decide)

/-- C2 counterexample: one feedback update *can* move a Confirmed
recommendation back to Pending — a `RecommendationUpdate` whose
`was_helpful` is explicitly `null` passes the `exclude_unset` dump and
overwrites the stored verdict with `null`. -/
theorem feedback_null_resets_pending_counterexample :
    (service_update_recommendation_feedback
      [⟨"r1", 1, none, "Marche", 0, some true, "mood_based", none⟩] "r1" 1
      ⟨some none⟩).2 =
      Except.ok ⟨"r1", 1, none, "Marche", 0, none, "mood_based", none⟩ := by
  rfl

/-- C2 (amended): a Confirmed recommendation (non-null `was_helpful`) stays
Confirmed across any feedback update that does not explicitly supply
`was_helpful = null`; only an explicit null resets it to Pending. -/
theorem feedback_update_confirmed_stays_confirmed
    (db : List Recommendation) (recommendation_id : String) (user_id : ℤ)
    (feedback : RecommendationUpdate) (r r' : Recommendation)
    (hfb : feedback.was_helpful ≠ some none)
    (hfound : get_recommendation_by_id db recommendation_id = some r)
    (hconf : r.was_helpful ≠ none)
    (hok : (service_update_recommendation_feedback db recommendation_id user_id
      feedback).2 = .ok r') :
    r'.was_helpful ≠ none := by
  unfold service_update_recommendation_feedback
    repo_update_recommendation_feedback at hok
  rw [hfound] at hok
  dsimp only at hok
  by_cases hu : r.user_id ≠ user_id
  · rw [if_pos hu] at hok
    simp at hok
  · rw [if_neg hu] at hok
    dsimp only at hok
    have hr' : r' = applyFeedbackUpdate r feedback := by
      injection hok with h
      exact h.symm
    subst hr'
    unfold applyFeedbackUpdate
    cases h : feedback.was_helpful with
    | none => simpa using hconf
    | some v =>
      cases v with
      | none => exact absurd h hfb
      | some b => simp

/-- C2 witness: updating a Confirmed recommendation with an explicit
boolean keeps it Confirmed. -/
theorem feedback_update_confirmed_stays_confirmed_witness :
    (⟨"r1", 1, none, "Marche", 0, some false, "mood_based", none⟩ :
      Recommendation).was_helpful ≠ none :=
  feedback_update_confirmed_stays_confirmed
    [⟨"r1", 1, none, "Marche", 0, some true, "mood_based", none⟩] "r1" 1
    ⟨some (some false)⟩
    ⟨"r1", 1, none, "Marche", 0, some true, "mood_based", none⟩
    ⟨"r1", 1, none, "Marche", 0, some false, "mood_based", none⟩
    (by decide) (by rfl) (by decide) (by rfl)

/-- A non-empty list keeps at least one element under `take 2`. -/
lemma take_two_ne_nil {α : Type} {l : List α} (h : l ≠ []) : l.take 2 ≠ [] := by
  cases l with
  | nil => exact absurd rfl h
  | cons a t => simp

/-- Every catalog bucket has a non-empty "immediate" list. -/
lemma activity_database_immediate_ne_nil (mood_level : ℤ) :
    (activity_database mood_level).immediate ≠ [] := by
  unfold activity_database
  split_ifs <;> simp [bucket1, bucket2, bucket3, bucket4, bucket5]

/-- The catalog lookup with its time filter and two-activity fallback never
returns an empty pool (for any mood level and any available time). -/
lemma get_activities_for_mood_ne_nil (mood_level time_available : ℤ) :
    get_activities_for_mood mood_level time_available ≠ [] := by
  have himm := activity_database_immediate_ne_nil mood_level
  have happ : (activity_database mood_level).immediate ++
      (activity_database mood_level).longer ≠ [] := fun hc =>
    himm (List.append_eq_nil.mp hc).1
  unfold get_activities_for_mood
  dsimp only
  split_ifs with h1 h2 h3
  · exact take_two_ne_nil himm
  · intro hc; rw [hc] at h2; simp at h2
  · exact take_two_ne_nil happ
  · intro hc; rw [hc] at h3; simp at h3

/-- One diversity step never shrinks the selection. -/
lemma diverse_step_length_mono (count : ℕ) (st : List ActivitySuggestion × List String)
    (a : ActivitySuggestion) : st.1.length ≤ ((diverse_step count st a).1).length := by
  unfold diverse_step
  split_ifs <;> simp

/-- One diversity step keeps the selection within `count`. -/
lemma diverse_step_length_le (count : ℕ) (st : List ActivitySuggestion × List String)
    (a : ActivitySuggestion) (h : st.1.length ≤ count) :
    ((diverse_step count st a).1).length ≤ count := by
  unfold diverse_step
  split_ifs with hc
  · simp
    omega
  · exact h

/-- The whole diversity pass keeps the selection within `count`. -/
lemma foldl_diverse_length_le (count : ℕ) (l : List ActivitySuggestion)
    (st : List ActivitySuggestion × List String) (h : st.1.length ≤ count) :
    ((l.foldl (diverse_step count) st).1).length ≤ count := by
  induction l generalizing st with
  | nil => simpa using h
  | cons a t ih => exact ih _ (diverse_step_length_le count st a h)

/-- The whole diversity pass never shrinks the selection. -/
lemma foldl_diverse_length_mono (count : ℕ) (l : List ActivitySuggestion)
    (st : List ActivitySuggestion × List String) :
    st.1.length ≤ ((l.foldl (diverse_step count) st).1).length := by
  induction l generalizing st with
  | nil => simp
  | cons a t ih =>
    calc st.1.length ≤ ((diverse_step count st a).1).length :=
          diverse_step_length_mono count st a
    _ ≤ _ := ih _

/-- Starting from the empty state with a positive budget, the diversity pass
over a non-empty pool selects at least one activity. -/
lemma foldl_diverse_ne_nil (count : ℕ) (hc : 0 < count)
    (l : List ActivitySuggestion) (hl : l ≠ []) :
    ((l.foldl (diverse_step count) ([], [])).1) ≠ [] := by
  cases l with
  | nil => exact absurd rfl hl
  | cons a t =>
    have h1 : diverse_step count ([], []) a = ([a], [a.category]) := by
      unfold diverse_step
      rw [if_pos ⟨by simp, by simpa using hc⟩]
      simp
    rw [List.foldl_cons, h1]
    have hm := foldl_diverse_length_mono count t ([a], [a.category])
    intro hcontra
    rw [hcontra] at hm
    simp at hm

/-- The diversity selection applied the way the generator calls it
(`count = min 3 |pool|`) returns a non-empty list of at most 3 items. -/
lemma select_diverse_length (pool : List ActivitySuggestion) (hp : pool ≠ []) :
    select_diverse_activities pool (min 3 pool.length) ≠ [] ∧
      (select_diverse_activities pool (min 3 pool.length)).length ≤ 3 := by
  unfold select_diverse_activities
  split_ifs with h
  · exact ⟨hp, le_trans h (min_le_left _ _)⟩
  · push_neg at h
    have hlpos : 0 < pool.length := List.length_pos.mpr hp
    have hc : 0 < min 3 pool.length := by omega
    constructor
    · have hsel := foldl_diverse_ne_nil (min 3 pool.length) hc pool hp
      intro hcontra
      exact hsel (List.append_eq_nil.mp hcontra).1
    · have hle := foldl_diverse_length_le (min 3 pool.length) pool ([], []) (by simp)
      rw [List.length_append, List.length_take]
      have h3 : min 3 pool.length ≤ 3 := min_le_left _ _
      omega

/-- C6: for every mood level in 1-5 and every available time in [5, 240],
the selection pipeline (catalog lookup with level-3 fallback, horizon
choice, time filter with fallback, recency filter with fallback, diversity
selection) returns between 1 and 3 activity suggestions, whatever the set of
recently suggested activity names. -/
theorem selectPipeline_returns_one_to_three (mood_level time_available : ℤ)
    (recent_activities : List String)
    (h1 : 1 ≤ mood_level) (h2 : mood_level ≤ 5)
    (h3 : 5 ≤ time_available) (h4 : time_available ≤ 240) :
    1 ≤ (selectPipeline mood_level time_available recent_activities).length ∧
      (selectPipeline mood_level time_available recent_activities).length ≤ 3 := by
  have hact := get_activities_for_mood_ne_nil mood_level time_available
  unfold selectPipeline
  dsimp only
  split_ifs with hfil
  · have hs := select_diverse_length _ (take_two_ne_nil hact)
    exact ⟨List.length_pos.mpr hs.1, hs.2⟩
  · have hpool : (get_activities_for_mood mood_level time_available).filter
        (fun a => a.activity ∉ recent_activities) ≠ [] := by
      intro hc
      rw [hc] at hfil
      simp at hfil
    have hs := select_diverse_length _ hpool
    exact ⟨List.length_pos.mpr hs.1, hs.2⟩

/-- C6 witness: the pipeline at mood level 1 with 30 minutes available and
one recently suggested name. -/
theorem selectPipeline_returns_one_to_three_witness :
    1 ≤ (selectPipeline 1 30 ["Prendre une douche chaude"]).length ∧
      (selectPipeline 1 30 ["Prendre une douche chaude"]).length ≤ 3 :=
  selectPipeline_returns_one_to_three 1 30 ["Prendre une douche chaude"]
    (by norm_num) (by norm_num) (by norm_num) (by norm_num)

/-- The category accumulator of the diversity pass mirrors the categories
of the selected activities. -/
lemma foldl_diverse_snd_eq (count : ℕ) (l : List ActivitySuggestion)
    (st : List ActivitySuggestion × List String)
    (h : st.2 = st.1.map (fun a => a.category)) :
    (l.foldl (diverse_step count) st).2 =
      ((l.foldl (diverse_step count) st).1).map (fun a => a.category) := by
  induction l generalizing st with
  | nil => simpa using h
  | cons a t ih =>
    rw [List.foldl_cons]
    apply ih
    unfold diverse_step
    split_ifs
    · simp [h]
    · exact h

/-- The category accumulator of the diversity pass stays duplicate-free. -/
lemma foldl_diverse_snd_nodup (count : ℕ) (l : List ActivitySuggestion)
    (st : List ActivitySuggestion × List String) (h : st.2.Nodup) :
    ((l.foldl (diverse_step count) st).2).Nodup := by
  induction l generalizing st with
  | nil => simpa using h
  | cons a t ih =>
    rw [List.foldl_cons]
    apply ih
    unfold diverse_step
    split_ifs with hc
    · refine List.Nodup.append h (List.nodup_singleton _) ?_
      intro x hx hx2
      rw [List.mem_singleton] at hx2
      subst hx2
      exact hc.1 hx
    · exact h

/-- One diversity step only grows the category accumulator. -/
lemma diverse_step_snd_subset (count : ℕ) (st : List ActivitySuggestion × List String)
    (a : ActivitySuggestion) : st.2 ⊆ (diverse_step count st a).2 := by
  unfold diverse_step
  split_ifs
  · simp [List.subset_append_left]
  · exact List.Subset.refl _

/-- The whole diversity pass only grows the category accumulator. -/
lemma foldl_diverse_snd_subset (count : ℕ) (l : List ActivitySuggestion)
    (st : List ActivitySuggestion × List String) :
    st.2 ⊆ (l.foldl (diverse_step count) st).2 := by
  induction l generalizing st with
  | nil => simp
  | cons a t ih =>
    rw [List.foldl_cons]
    exact fun x hx => ih _ (diverse_step_snd_subset count st a hx)

/-- If the diversity pass ends below its budget, it has seen (and recorded)
every category of the pool. -/
lemma foldl_diverse_saturated (count : ℕ) (l : List ActivitySuggestion)
    (st : List ActivitySuggestion × List String)
    (hfin : ((l.foldl (diverse_step count) st).1).length < count) :
    ∀ a ∈ l, a.category ∈ (l.foldl (diverse_step count) st).2 := by
  induction l generalizing st with
  | nil => simp
  | cons b t ih =>
    intro a ha
    rw [List.foldl_cons] at hfin ⊢
    rcases List.mem_cons.mp ha with rfl | hat
    · by_cases hb : a.category ∈ st.2
      · exact foldl_diverse_snd_subset count t _ (diverse_step_snd_subset count st a hb)
      · by_cases hlen : st.1.length < count
        · have hstep : a.category ∈ (diverse_step count st a).2 := by
            unfold diverse_step
            rw [if_pos ⟨hb, hlen⟩]
            simp
          exact foldl_diverse_snd_subset count t _ hstep
        · exfalso
          have hmono := foldl_diverse_length_mono count t (diverse_step count st a)
          have hstep := diverse_step_length_mono count st a
          omega
    · exact ih _ hfin a hat

/-- C8: whenever the candidate pool handed to the diversity selection spans
at least 3 distinct categories, the selected activities (budget
`min 3 |pool|`, as the generator calls it) cover at least 2 distinct
categories. -/
theorem select_diverse_category_coverage (pool : List ActivitySuggestion)
    (h3 : 3 ≤ ((pool.map (fun a => a.category)).dedup).length) :
    2 ≤ (((select_diverse_activities pool (min 3 pool.length)).map
      (fun a => a.category)).dedup).length := by
  unfold select_diverse_activities
  split_ifs with hle
  · omega
  · push_neg at hle
    have hmin : min 3 pool.length = 3 := by
      rcases le_or_lt 3 pool.length with h | h
      · exact min_eq_left h
      · exfalso
        rw [min_eq_right (le_of_lt h)] at hle
        omega
    rw [hmin]
    dsimp only
    have hsnd := foldl_diverse_snd_eq 3 pool ([], []) (by simp)
    have hnodup := foldl_diverse_snd_nodup 3 pool ([], []) (by simp)
    have hle3 := foldl_diverse_length_le 3 pool ([], []) (by simp)
    have hlen3 : ((pool.foldl (diverse_step 3) ([], [])).1).length = 3 := by
      by_contra hne
      have hlt : ((pool.foldl (diverse_step 3) ([], [])).1).length < 3 :=
        lt_of_le_of_ne hle3 hne
      have hsat := foldl_diverse_saturated 3 pool ([], []) hlt
      have hsub : (pool.map (fun a => a.category)).toFinset ⊆
          ((pool.foldl (diverse_step 3) ([], [])).2).toFinset := by
        intro c hcmem
        rw [List.mem_toFinset] at hcmem ⊢
        obtain ⟨a, hamem, rfl⟩ := List.mem_map.mp hcmem
        exact hsat a hamem
      have hcard1 : 3 ≤ (pool.map (fun a => a.category)).toFinset.card := by
        rw [List.card_toFinset]
        exact h3
      have hcard2 := List.toFinset_card_le ((pool.foldl (diverse_step 3) ([], [])).2)
      have hcard3 := Finset.card_le_card hsub
      have hlen2 : ((pool.foldl (diverse_step 3) ([], [])).2).length =
          ((pool.foldl (diverse_step 3) ([], [])).1).length := by
        rw [hsnd]
        simp
      omega
    rw [hlen3]
    simp only [Nat.sub_self, List.take_zero, List.append_nil]
    rw [← hsnd, List.Nodup.dedup hnodup]
    have hlen2 : ((pool.foldl (diverse_step 3) ([], [])).2).length =
        ((pool.foldl (diverse_step 3) ([], [])).1).length := by
      rw [hsnd]
      simp
    omega

/-- C8 witness: a four-activity pool spanning three categories. -/
theorem select_diverse_category_coverage_witness :
    2 ≤ (((select_diverse_activities
      [⟨"a1", "d1", 5, "calming", "easy", "mental"⟩,
       ⟨"a2", "d2", 10, "positive", "easy", "physical"⟩,
       ⟨"a3", "d3", 15, "positive", "medium", "social"⟩,
       ⟨"a4", "d4", 20, "calming", "hard", "mental"⟩]
      (min 3 ([⟨"a1", "d1", 5, "calming", "easy", "mental"⟩,
       ⟨"a2", "d2", 10, "positive", "easy", "physical"⟩,
       ⟨"a3", "d3", 15, "positive", "medium", "social"⟩,
       ⟨"a4", "d4", 20, "calming", "hard", "mental"⟩] :
        List ActivitySuggestion).length)).map
      (fun a => a.category)).dedup).length :=
  select_diverse_category_coverage
    [⟨"a1", "d1", 5, "calming", "easy", "mental"⟩,
     ⟨"a2", "d2", 10, "positive", "easy", "physical"⟩,
     ⟨"a3", "d3", 15, "positive", "medium", "social"⟩,
     ⟨"a4", "d4", 20, "calming", "hard", "mental"⟩]
    (by decide)

/-- The candidate-selection pipeline always returns between 1 and 3
activities, for every mood level (out-of-range levels fall back to the
level-3 bucket), every time budget and every recency set. -/
lemma selectPipeline_length_bounds (mood_level time_available : ℤ)
    (recent_activities : List String) :
    1 ≤ (selectPipeline mood_level time_available recent_activities).length ∧
      (selectPipeline mood_level time_available recent_activities).length ≤ 3 := by
  have hact := get_activities_for_mood_ne_nil mood_level time_available
  unfold selectPipeline
  dsimp only
  split_ifs with hfil
  · have hs := select_diverse_length _ (take_two_ne_nil hact)
    exact ⟨List.length_pos.mpr hs.1, hs.2⟩
  · have hpool : (get_activities_for_mood mood_level time_available).filter
        (fun a => a.activity ∉ recent_activities) ≠ [] := by
      intro hc
      rw [hc] at hfil
      simp at hfil
    have hs := select_diverse_length _ hpool
    exact ⟨List.length_pos.mpr hs.1, hs.2⟩

/-- Specification of the persistence loop: a successful run appends exactly
one `mood_based` row per selected activity (scored by the confidence
scorer), and a failing run fails with `persistenceFailure`, retaining the
rows committed before the failing call. -/
lemma persistSelected_spec (user_id : ℤ) (mood_id : Option String)
    (mood_level now : ℤ) (idGen : ℕ → String) (createFails : ℕ → Bool)
    (sel : List ActivitySuggestion) :
    ∀ (i : ℕ) (db acc : List Recommendation),
      (∀ db' recs,
        persistSelected user_id mood_id mood_level now idGen createFails sel i db acc =
          (db', Except.ok recs) →
        ∃ created, recs = acc ++ created ∧ db' = db ++ created ∧
          created.length = sel.length ∧
          ∀ r ∈ created, r.recommendation_type = "mood_based" ∧
            ∃ a ∈ sel, r.suggested_activity = a.activity ∧
              r.confidence_score = some (calculate_confidence_score mood_level a))
      ∧ (∀ db' e,
          persistSelected user_id mood_id mood_level now idGen createFails sel i db acc =
            (db', Except.error e) →
          e = ApiError.persistenceFailure ∧ ∃ created, db' = db ++ created) := by
  induction sel with
  | nil =>
    intro i db acc
    constructor
    · intro db' recs h
      simp only [persistSelected] at h
      injection h with h1 h2
      injection h2 with h3
      exact ⟨[], by simp [h3], by simp [h1], rfl, by simp⟩
    · intro db' e h
      simp only [persistSelected] at h
      injection h with h1 h2
      exact absurd h2 (by simp)
  | cons a rest ih =>
    intro i db acc
    constructor
    · intro db' recs h
      simp only [persistSelected] at h
      by_cases hf : createFails i = true
      · rw [if_pos hf] at h
        injection h with h1 h2
        exact absurd h2 (by simp)
      · rw [if_neg hf] at h
        obtain ⟨created, hrec, hdb, hlen, hfields⟩ := (ih (i + 1) _ _).1 db' recs h
        refine ⟨⟨idGen i, user_id, mood_id, a.activity, now, none, "mood_based",
          some (calculate_confidence_score mood_level a)⟩ :: created, ?_, ?_, ?_, ?_⟩
        · rw [hrec, List.append_assoc]
          rfl
        · rw [hdb, List.append_assoc]
          rfl
        · simp [hlen]
        · intro r hr
          rcases List.mem_cons.mp hr with rfl | hr'
          · exact ⟨rfl, a, List.mem_cons_self _ _, rfl, rfl⟩
          · obtain ⟨ht, b, hb, hsug, hconf⟩ := hfields r hr'
            exact ⟨ht, b, List.mem_cons_of_mem _ hb, hsug, hconf⟩
    · intro db' e h
      simp only [persistSelected] at h
      by_cases hf : createFails i = true
      · rw [if_pos hf] at h
        injection h with h1 h2
        injection h2 with h3
        exact ⟨h3.symm, [], by simp [h1]⟩
      · rw [if_neg hf] at h
        obtain ⟨he, created, hdb⟩ := (ih (i + 1) _ _).2 db' e h
        refine ⟨he, ⟨idGen i, user_id, mood_id, a.activity, now, none, "mood_based",
          some (calculate_confidence_score mood_level a)⟩ :: created, ?_⟩
        rw [hdb, List.append_assoc]
        rfl

/-- C3 (amended): generation raises `Forbidden`, `NotFound` and
`InvalidRequest` before any write, leaving the store unchanged, and a full
success appends exactly the 1-3 returned rows; but a *persistence* failure
in the middle of the creation loop retains the rows committed by the
earlier iterations, so an error is not always free of partial writes. -/
theorem generate_write_discipline (db : List Recommendation)
    (moodDb : List MoodEntry) (user : User) (request : RecommendationGenerateRequest)
    (now : ℤ) (idGen : ℕ → String) (createFails : ℕ → Bool) :
    (∀ e, e ≠ ApiError.persistenceFailure →
      (generate_recommendations_from_mood db moodDb user request now idGen
        createFails).2 = Except.error e →
      (generate_recommendations_from_mood db moodDb user request now idGen
        createFails).1 = db)
    ∧ (∀ recs,
        (generate_recommendations_from_mood db moodDb user request now idGen
          createFails).2 = Except.ok recs →
        (generate_recommendations_from_mood db moodDb user request now idGen
          createFails).1 = db ++ recs ∧ 1 ≤ recs.length ∧ recs.length ≤ 3) := by
  cases hcons : user.consent with
  | false =>
    have hgen : generate_recommendations_from_mood db moodDb user request now idGen
        createFails = (db, Except.error ApiError.forbidden) := by
      unfold generate_recommendations_from_mood
      rw [hcons]
      rfl
    rw [hgen]
    exact ⟨fun e he h => rfl, fun recs h => absurd h (by simp)⟩
  | true =>
    cases hres : resolveMoodLevel moodDb user request with
    | error e0 =>
      have hgen : generate_recommendations_from_mood db moodDb user request now idGen
          createFails = (db, Except.error e0) := by
        unfold generate_recommendations_from_mood
        rw [hcons, hres]
        rfl
      rw [hgen]
      exact ⟨fun e he h => rfl, fun recs h => absurd h (by simp)⟩
    | ok mood_level =>
      have hgen : generate_recommendations_from_mood db moodDb user request now idGen
          createFails = persistSelected user.id request.mood_id mood_level now idGen
            createFails
            (selectPipeline mood_level (orDefault request.time_available 30)
              ((get_recent_recommendations db user.id now).map
                (fun r => r.suggested_activity)))
            0 db [] := by
        unfold generate_recommendations_from_mood
        rw [hcons, hres]
        rfl
      rw [hgen]
      constructor
      · intro e he h
        have hpair : persistSelected user.id request.mood_id mood_level now idGen
            createFails
            (selectPipeline mood_level (orDefault request.time_available 30)
              ((get_recent_recommendations db user.id now).map
                (fun r => r.suggested_activity)))
            0 db [] =
            ((persistSelected user.id request.mood_id mood_level now idGen createFails
              (selectPipeline mood_level (orDefault request.time_available 30)
                ((get_recent_recommendations db user.id now).map
                  (fun r => r.suggested_activity)))
              0 db []).1, Except.error e) := by
          rw [← h]
        obtain ⟨he', _⟩ := (persistSelected_spec user.id request.mood_id mood_level now
          idGen createFails _ 0 db []).2 _ e hpair
        exact absurd he' he
      · intro recs h
        have hpair : persistSelected user.id request.mood_id mood_level now idGen
            createFails
            (selectPipeline mood_level (orDefault request.time_available 30)
              ((get_recent_recommendations db user.id now).map
                (fun r => r.suggested_activity)))
            0 db [] =
            ((persistSelected user.id request.mood_id mood_level now idGen createFails
              (selectPipeline mood_level (orDefault request.time_available 30)
                ((get_recent_recommendations db user.id now).map
                  (fun r => r.suggested_activity)))
              0 db []).1, Except.ok recs) := by
          rw [← h]
        obtain ⟨created, hrec, hdb, hlen, _⟩ := (persistSelected_spec user.id
          request.mood_id mood_level now idGen createFails _ 0 db []).1 _ recs hpair
        have hbounds := selectPipeline_length_bounds mood_level
          (orDefault request.time_available 30)
          ((get_recent_recommendations db user.id now).map (fun r => r.suggested_activity))
        simp only [List.nil_append] at hrec
        subst hrec
        exact ⟨hdb, by omega, by omega⟩

/-- C3 counterexample: with consent granted and a direct mood level, a
failure of the second persistence call leaves the first created row in the
store — the error is accompanied by a partial write. -/
theorem generate_partial_write_counterexample :
    (generate_recommendations_from_mood [] [] ⟨1, true⟩ ⟨none, some 3, some 30⟩ 0
        (fun j => "x") (fun j => j = 1)) =
      ([⟨"x", 1, none, "Faire 10 minutes de méditation", 0, none, "mood_based",
          some (calculate_confidence_score 3
            ⟨"Faire 10 minutes de méditation", "Moment de centrage et de clarté",
             10, "calming", "medium", "mental"⟩)⟩],
        Except.error ApiError.persistenceFailure) ∧
      ([⟨"x", 1, none, "Faire 10 minutes de méditation", 0, none, "mood_based",
          some (calculate_confidence_score 3
            ⟨"Faire 10 minutes de méditation", "Moment de centrage et de clarté",
             10, "calming", "medium", "mental"⟩)⟩] : List Recommendation) ≠ [] := by
  constructor
  · rfl
  · simp

/-- C3 witness: a consent-less call leaves the store unchanged, and a fully
successful call appends exactly its returned rows. -/
theorem generate_write_discipline_witness :
    (generate_recommendations_from_mood [] [] ⟨1, false⟩ ⟨none, some 3, some 30⟩ 0
        (fun j => "x") (fun j => false)).1 = ([] : List Recommendation) ∧
    (generate_recommendations_from_mood [] [] ⟨2, true⟩ ⟨none, some 1, some 5⟩ 0
        (fun j => "y") (fun j => false)).1 =
      [] ++ [⟨"y", 2, none, "Respirer profondément pendant 5 minutes", 0, none,
        "mood_based", some (calculate_confidence_score 1
          ⟨"Respirer profondément pendant 5 minutes",
           "Exercice de respiration pour calmer l\x27anxiété", 5, "calming", "easy",
           "mental"⟩)⟩] := by
  constructor
  · exact (generate_write_discipline [] [] ⟨1, false⟩ ⟨none, some 3, some 30⟩ 0
      (fun j => "x") (fun j => false)).1 ApiError.forbidden (by decide) (by rfl)
  · exact ((generate_write_discipline [] [] ⟨2, true⟩ ⟨none, some 1, some 5⟩ 0
      (fun j => "y") (fun j => false)).2 _ (by rfl)).1

/-- C10: every recommendation returned (and persisted) by a successful
generation has `recommendation_type = "mood_based"` and a confidence score
of at least 0.7 (and at most 1). -/
theorem generated_records_confidence_and_type (db : List Recommendation)
    (moodDb : List MoodEntry) (user : User) (request : RecommendationGenerateRequest)
    (now : ℤ) (idGen : ℕ → String) (createFails : ℕ → Bool)
    (recs : List Recommendation)
    (hok : (generate_recommendations_from_mood db moodDb user request now idGen
      createFails).2 = Except.ok recs) :
    (generate_recommendations_from_mood db moodDb user request now idGen
      createFails).1 = db ++ recs ∧
    ∀ r ∈ recs, r.recommendation_type = "mood_based" ∧
      ∃ q, r.confidence_score = some q ∧ (0.7 : ℚ) ≤ q ∧ q ≤ 1 := by
  cases hcons : user.consent with
  | false =>
    have hgen : generate_recommendations_from_mood db moodDb user request now idGen
        createFails = (db, Except.error ApiError.forbidden) := by
      unfold generate_recommendations_from_mood
      rw [hcons]
      rfl
    rw [hgen] at hok
    simp at hok
  | true =>
    cases hres : resolveMoodLevel moodDb user request with
    | error e0 =>
      have hgen : generate_recommendations_from_mood db moodDb user request now idGen
          createFails = (db, Except.error e0) := by
        unfold generate_recommendations_from_mood
        rw [hcons, hres]
        rfl
      rw [hgen] at hok
      simp at hok
    | ok mood_level =>
      have hgen : generate_recommendations_from_mood db moodDb user request now idGen
          createFails = persistSelected user.id request.mood_id mood_level now idGen
            createFails
            (selectPipeline mood_level (orDefault request.time_available 30)
              ((get_recent_recommendations db user.id now).map
                (fun r => r.suggested_activity)))
            0 db [] := by
        unfold generate_recommendations_from_mood
        rw [hcons, hres]
        rfl
      rw [hgen] at hok
      have hpair : persistSelected user.id request.mood_id mood_level now idGen
          createFails
          (selectPipeline mood_level (orDefault request.time_available 30)
            ((get_recent_recommendations db user.id now).map
              (fun r => r.suggested_activity)))
          0 db [] =
          ((persistSelected user.id request.mood_id mood_level now idGen createFails
            (selectPipeline mood_level (orDefault request.time_available 30)
              ((get_recent_recommendations db user.id now).map
                (fun r => r.suggested_activity)))
            0 db []).1, Except.ok recs) := by
        rw [← hok]
      obtain ⟨created, hrec, hdb, hlen, hfields⟩ := (persistSelected_spec user.id
        request.mood_id mood_level now idGen createFails _ 0 db []).1 _ recs hpair
      simp only [List.nil_append] at hrec
      subst hrec
      rw [hgen]
      refine ⟨hdb, ?_⟩
      intro r hr
      obtain ⟨ht, a, ha, hsug, hconf⟩ := hfields r hr
      obtain ⟨hlo, hhi⟩ := calculate_confidence_score_bounds mood_level a
      exact ⟨ht, calculate_confidence_score mood_level a, hconf, hlo, hhi⟩

/-- C10 witness: the single row created at mood level 1 with 5 minutes
available is mood-based with a confidence score in [0.7, 1]. -/
theorem generated_records_confidence_and_type_witness :
    (⟨"y", 2, none, "Respirer profondément pendant 5 minutes", 0, none,
        "mood_based", some (calculate_confidence_score 1
          ⟨"Respirer profondément pendant 5 minutes",
           "Exercice de respiration pour calmer l\x27anxiété", 5, "calming", "easy",
           "mental"⟩)⟩ : Recommendation).recommendation_type = "mood_based" ∧
      ∃ q, (⟨"y", 2, none, "Respirer profondément pendant 5 minutes", 0, none,
        "mood_based", some (calculate_confidence_score 1
          ⟨"Respirer profondément pendant 5 minutes",
           "Exercice de respiration pour calmer l\x27anxiété", 5, "calming", "easy",
           "mental"⟩)⟩ : Recommendation).confidence_score = some q ∧
        (0.7 : ℚ) ≤ q ∧ q ≤ 1 :=
  (generated_records_confidence_and_type [] [] ⟨2, true⟩ ⟨none, some 1, some 5⟩ 0
    (fun j => "y") (fun j => false) _ (by rfl)).2 _ (by simp)

/-- Mood resolution yields `InvalidRequest` exactly when neither source is
supplied (truthy): a truthy `mood_id` takes the lookup branch (yielding the
entry's level or `NotFound`), else a truthy `mood_level` is used directly. -/
lemma resolveMoodLevel_invalid_iff (moodDb : List MoodEntry) (user : User)
    (request : RecommendationGenerateRequest) :
    resolveMoodLevel moodDb user request = Except.error ApiError.invalidRequest ↔
      strTruthy request.mood_id = false ∧ intTruthy request.mood_level = false := by
  unfold resolveMoodLevel
  by_cases hid : strTruthy request.mood_id = true
  · rw [if_pos hid]
    cases hfind : moodDb.find? (fun m => some m.id = request.mood_id) with
    | none => simp [hid]
    | some m =>
      dsimp only
      split_ifs <;> simp [hid]
  · have hid' : strTruthy request.mood_id = false := by
      revert hid
      cases strTruthy request.mood_id <;> simp
    rw [if_neg hid]
    by_cases hlvl : intTruthy request.mood_level = true
    · rw [if_pos hlvl]
      simp [hid', hlvl]
    · have hlvl' : intTruthy request.mood_level = false := by
        revert hlvl
        cases intTruthy request.mood_level <;> simp
      rw [if_neg hlvl]
      simp [hid', hlvl']

/-- C4 (amended): with consent granted, generation raises `InvalidRequest`
exactly when *neither* a truthy `mood_id` nor a truthy `mood_level` is
supplied — and then it resolves no mood level and leaves the store
unchanged.  When both sources are supplied, `mood_id` silently takes
precedence; no `InvalidRequest` is raised. -/
theorem generate_invalid_request_iff (db : List Recommendation)
    (moodDb : List MoodEntry) (user : User) (request : RecommendationGenerateRequest)
    (now : ℤ) (idGen : ℕ → String) (createFails : ℕ → Bool)
    (hcons : user.consent = true) :
    ((generate_recommendations_from_mood db moodDb user request now idGen
        createFails).2 = Except.error ApiError.invalidRequest ↔
      strTruthy request.mood_id = false ∧ intTruthy request.mood_level = false)
    ∧ (strTruthy request.mood_id = false ∧ intTruthy request.mood_level = false →
        (generate_recommendations_from_mood db moodDb user request now idGen
          createFails).1 = db) := by
  cases hres : resolveMoodLevel moodDb user request with
  | error e0 =>
    have hgen : generate_recommendations_from_mood db moodDb user request now idGen
        createFails = (db, Except.error e0) := by
      unfold generate_recommendations_from_mood
      rw [hcons, hres]
      rfl
    rw [hgen]
    constructor
    · rw [← resolveMoodLevel_invalid_iff moodDb user request, hres]
      simp
    · intro _
      rfl
  | ok mood_level =>
    have hgen : generate_recommendations_from_mood db moodDb user request now idGen
        createFails = persistSelected user.id request.mood_id mood_level now idGen
          createFails
          (selectPipeline mood_level (orDefault request.time_available 30)
            ((get_recent_recommendations db user.id now).map
              (fun r => r.suggested_activity)))
          0 db [] := by
      unfold generate_recommendations_from_mood
      rw [hcons, hres]
      rfl
    rw [hgen]
    have hnotinv : ¬(strTruthy request.mood_id = false ∧
        intTruthy request.mood_level = false) := by
      intro hc
      have := (resolveMoodLevel_invalid_iff moodDb user request).mpr hc
      rw [hres] at this
      exact absurd this (by simp)
    constructor
    · constructor
      · intro h
        have hpair : persistSelected user.id request.mood_id mood_level now idGen
            createFails
            (selectPipeline mood_level (orDefault request.time_available 30)
              ((get_recent_recommendations db user.id now).map
                (fun r => r.suggested_activity)))
            0 db [] =
            ((persistSelected user.id request.mood_id mood_level now idGen createFails
              (selectPipeline mood_level (orDefault request.time_available 30)
                ((get_recent_recommendations db user.id now).map
                  (fun r => r.suggested_activity)))
              0 db []).1, Except.error ApiError.invalidRequest) := by
          rw [← h]
        obtain ⟨he, _⟩ := (persistSelected_spec user.id request.mood_id mood_level now
          idGen createFails _ 0 db []).2 _ ApiError.invalidRequest hpair
        exact absurd he (by simp)
      · intro hc
        exact absurd hc hnotinv
    · intro hc
      exact absurd hc hnotinv

/-- C4 counterexample: a request supplying *both* a resolvable `mood_id`
(of a level-2 mood entry of the caller) and a direct `mood_level` succeeds
with the entry's level — no `InvalidRequest` is raised. -/
theorem generate_both_sources_counterexample :
    (generate_recommendations_from_mood [] [⟨"m1", 1, 2⟩] ⟨1, true⟩
        ⟨some "m1", some 4, some 30⟩ 0 (fun j => "i") (fun j => false)).2 =
      Except.ok
        [⟨"i", 1, some "m1", "Faire une courte promenade", 0, none, "mood_based",
          some (calculate_confidence_score 2
            ⟨"Faire une courte promenade", "Marcher aide à changer d\x27environnement",
             15, "positive", "easy", "physical"⟩)⟩,
         ⟨"i", 1, some "m1", "Tenir un journal de gratitude", 0, none, "mood_based",
          some (calculate_confidence_score 2
            ⟨"Tenir un journal de gratitude", "Noter 3 choses positives de la journée",
             10, "positive", "easy", "mental"⟩)⟩,
         ⟨"i", 1, some "m1", "Boire une tisane chaude", 0, none, "mood_based",
          some (calculate_confidence_score 2
            ⟨"Boire une tisane chaude", "Moment de réconfort et de chaleur",
             10, "calming", "easy", "physical"⟩)⟩] ∧
    (generate_recommendations_from_mood [] [⟨"m1", 1, 2⟩] ⟨1, true⟩
        ⟨some "m1", some 4, some 30⟩ 0 (fun j => "i") (fun j => false)).2 ≠
      Except.error ApiError.invalidRequest := by
  constructor
  · rfl
  · intro h
    rw [show (generate_recommendations_from_mood [] [⟨"m1", 1, 2⟩] ⟨1, true⟩
        ⟨some "m1", some 4, some 30⟩ 0 (fun j => "i") (fun j => false)).2 =
        Except.ok _ from rfl] at h
    exact absurd h (by simp)

/-- C4 witness: the amended characterization applied to a consent-granting
user with neither mood source supplied. -/
theorem generate_invalid_request_iff_witness :
    (generate_recommendations_from_mood [] [] ⟨3, true⟩ ⟨none, none, some 30⟩ 0
        (fun j => "i") (fun j => false)).2 = Except.error ApiError.invalidRequest ∧
    (generate_recommendations_from_mood [] [] ⟨3, true⟩ ⟨none, none, some 30⟩ 0
        (fun j => "i") (fun j => false)).1 = ([] : List Recommendation) := by
  have h := generate_invalid_request_iff [] [] ⟨3, true⟩ ⟨none, none, some 30⟩ 0
    (fun j => "i") (fun j => false) rfl
  exact ⟨h.1.mpr ⟨rfl, rfl⟩, h.2 ⟨rfl, rfl⟩⟩

/-- Every bulk step counts one error and never touches `updated`: the
route's `await` of the synchronous service method raises `TypeError` even
when the update succeeded, and the bare `except Exception` absorbs it. -/
lemma bulkStep_counts (user_id : ℤ) (db : List Recommendation) (u e : ℕ)
    (item : FeedbackItem) :
    (bulkStep user_id (db, u, e) item).2 = (u, e + 1) := by
  unfold bulkStep
  dsimp only
  split_ifs with h
  · cases hsrv : service_update_recommendation_feedback db
        (item.recommendation_id.getD "") user_id ⟨some item.was_helpful⟩ with
    | mk db' res => cases res <;> rfl
  · rfl

/-- The bulk fold leaves `updated` at its initial value and adds the batch
size to `errors`. -/
lemma update_bulk_foldl_counts (user_id : ℤ) (items : List FeedbackItem) :
    ∀ (db : List Recommendation) (u e : ℕ),
      (items.foldl (bulkStep user_id) (db, u, e)).2.1 = u ∧
      (items.foldl (bulkStep user_id) (db, u, e)).2.2 = e + items.length := by
  induction items with
  | nil => intro db u e; simp
  | cons item rest ih =>
    intro db u e
    rw [List.foldl_cons]
    have hc := bulkStep_counts user_id db u e item
    have heta : bulkStep user_id (db, u, e) item =
        ((bulkStep user_id (db, u, e) item).1, u, e + 1) := by
      rw [← hc]
    rw [heta]
    obtain ⟨ih1, ih2⟩ := ih (bulkStep user_id (db, u, e) item).1 u (e + 1)
    refine ⟨ih1, ?_⟩
    rw [ih2, List.length_cons]
    omega

/-- C9: the bulk-feedback route never aborts — the per-item `try/except`
absorbs every failure and the two counters always sum to the batch size —
but because the route `await`s the *synchronous*
`update_recommendation_feedback`, the resulting `TypeError` is caught like
any other failure: `updated` stays 0 and every item, including a
well-formed one whose recommendation exists and belongs to the caller, is
counted in `errors` (the feedback write of such an item is nevertheless
committed before the `TypeError`, as the concrete evaluation shows). -/
theorem bulk_feedback_counts_all_items_as_errors :
    (∀ (db : List Recommendation) (user_id : ℤ) (feedbacks : List FeedbackItem),
      (update_bulk_feedback db user_id feedbacks).2.1 = 0 ∧
      (update_bulk_feedback db user_id feedbacks).2.1 +
        (update_bulk_feedback db user_id feedbacks).2.2 = feedbacks.length) ∧
    update_bulk_feedback
      [⟨"r1", 1, none, "Marche", 0, none, "mood_based", none⟩] 1
      [⟨some "r1", some true⟩] =
      ([⟨"r1", 1, none, "Marche", 0, some true, "mood_based", none⟩], 0, 1) := by
  constructor
  · intro db user_id feedbacks
    obtain ⟨h1, h2⟩ := update_bulk_foldl_counts user_id feedbacks db 0 0
    unfold update_bulk_feedback
    exact ⟨h1, by rw [h1, h2]; omega⟩
  · rfl

/-- Every ranked entry passed the 2-sample qualification threshold. -/
lemma mem_activity_rates_total (recs : List Recommendation) (e : ActivityRate)
    (he : e ∈ activity_rates recs) : 2 ≤ e.total_feedback := by
  unfold activity_rates at he
  obtain ⟨k, hk, hsome⟩ := List.mem_filterMap.mp he
  dsimp only at hsome
  split_ifs at hsome with h
  injection hsome with h'
  rw [← h']
  exact h

/-- The descending sort of the ranked entries is pairwise descending. -/
lemma sorted_activity_rates_pairwise (recs : List Recommendation) :
    (sorted_activity_rates recs).Pairwise (fun a b => b.rate ≤ a.rate) := by
  unfold sorted_activity_rates
  have h := @List.sorted_mergeSort ActivityRate
    (fun a b : ActivityRate => decide (b.rate ≤ a.rate))
    (fun a b c hab hbc => by
      rw [decide_eq_true_eq] at *
      exact le_trans hbc hab)
    (fun a b => by
      rcases le_total a.rate b.rate with h | h <;> simp [h])
    (activity_rates recs)
  exact h.imp (fun hab => of_decide_eq_true hab)

/-- The descending sort permutes the ranked entries. -/
lemma sorted_activity_rates_perm (recs : List Recommendation) :
    (sorted_activity_rates recs).Perm (activity_rates recs) :=
  List.mergeSort_perm _ _

/-- C5 (amended): in the feedback summary's per-activity breakdown an
activity qualifies only with at least 2 feedback samples;
`most_helpful_activities` is the (at most) 3 qualifying activities of
highest helpfulness rate, in descending rate order;
`least_helpful_activities` is the 3 qualifying activities of lowest rate
— but emitted in *descending* rate order (the tail of the descending sort,
not re-sorted ascending) — and is empty whenever at most 3 activities
qualify. -/
theorem feedback_breakdown_ranking (recs : List Recommendation) :
    ((most_helpful_activities recs).length = min 3 (activity_rates recs).length)
    ∧ (most_helpful_activities recs).Pairwise (fun a b => b.rate ≤ a.rate)
    ∧ (∀ a ∈ most_helpful_activities recs, 2 ≤ a.total_feedback)
    ∧ (∀ a ∈ most_helpful_activities recs, ∀ b ∈ activity_rates recs,
        b ∉ most_helpful_activities recs → b.rate ≤ a.rate)
    ∧ (least_helpful_activities recs = [] ↔ (activity_rates recs).length ≤ 3)
    ∧ (least_helpful_activities recs).Pairwise (fun a b => b.rate ≤ a.rate)
    ∧ (∀ a ∈ least_helpful_activities recs, 2 ≤ a.total_feedback)
    ∧ (∀ b ∈ least_helpful_activities recs, ∀ a ∈ activity_rates recs,
        a ∉ least_helpful_activities recs → b.rate ≤ a.rate)
    ∧ (3 < (activity_rates recs).length → (least_helpful_activities recs).length = 3) := by
  have hperm := sorted_activity_rates_perm recs
  have hpair := sorted_activity_rates_pairwise recs
  have hlen : (sorted_activity_rates recs).length = (activity_rates recs).length :=
    hperm.length_eq
  refine ⟨?_, ?_, ?_, ?_, ?_, ?_, ?_, ?_, ?_⟩
  · unfold most_helpful_activities
    rw [List.length_take, hlen]
  · exact List.Pairwise.sublist (List.take_sublist 3 _) hpair
  · intro a ha
    have : a ∈ sorted_activity_rates recs := (List.take_sublist 3 _).subset ha
    exact mem_activity_rates_total recs a (hperm.mem_iff.mp this)
  · intro a ha b hb hbnot
    have hbs : b ∈ sorted_activity_rates recs := hperm.mem_iff.mpr hb
    have hsplit := List.take_append_drop 3 (sorted_activity_rates recs)
    have hbdrop : b ∈ (sorted_activity_rates recs).drop 3 := by
      rcases List.mem_append.mp (by rw [hsplit]; exact hbs) with h | h
      · exact absurd h hbnot
      · exact h
    have hp := hpair
    rw [← hsplit] at hp
    exact (List.pairwise_append.mp hp).2.2 a ha b hbdrop
  · unfold least_helpful_activities
    dsimp only
    split_ifs with h
    · constructor
      · intro hc
        have := congrArg List.length hc
        rw [List.length_drop, hlen] at this
        simp at this
        omega
      · intro hc
        rw [hlen] at h
        omega
    · rw [hlen] at h
      constructor
      · intro _
        omega
      · intro _
        rfl
  · unfold least_helpful_activities
    dsimp only
    split_ifs with h
    · exact List.Pairwise.sublist (List.drop_sublist _ _) hpair
    · simp
  · intro a ha
    unfold least_helpful_activities at ha
    dsimp only at ha
    split_ifs at ha with h
    · have : a ∈ sorted_activity_rates recs := (List.drop_sublist _ _).subset ha
      exact mem_activity_rates_total recs a (hperm.mem_iff.mp this)
    · exact absurd ha (by simp)
  · intro b hb a ha hanot
    unfold least_helpful_activities at hb hanot
    dsimp only at hb hanot
    split_ifs at hb hanot with h
    · have has : a ∈ sorted_activity_rates recs := hperm.mem_iff.mpr ha
      have hsplit := List.take_append_drop
        ((sorted_activity_rates recs).length - 3) (sorted_activity_rates recs)
      have hatake : a ∈ (sorted_activity_rates recs).take
          ((sorted_activity_rates recs).length - 3) := by
        rcases List.mem_append.mp (by rw [hsplit]; exact has) with h' | h'
        · exact h'
        · exact absurd h' hanot
      have hp := hpair
      rw [← hsplit] at hp
      exact (List.pairwise_append.mp hp).2.2 a hatake b hb
    · exact absurd hb (by simp)
  · intro h
    unfold least_helpful_activities
    dsimp only
    rw [if_pos (by rw [hlen]; exact h)]
    rw [List.length_drop, hlen]
    omega

/-- Nine feedback-confirmed recommendations over four activities: A twice
helpful, D helpful twice of three, B helpful once of two, C never helpful. -/
def cx9 : List Recommendation := [
  ⟨"a1", 1, none, "A", 0, some true, "mood_based", none⟩,
  ⟨"a2", 1, none, "A", 0, some true, "mood_based", none⟩,
  ⟨"d1", 1, none, "D", 0, some true, "mood_based", none⟩,
  ⟨"d2", 1, none, "D", 0, some true, "mood_based", none⟩,
  ⟨"d3", 1, none, "D", 0, some false, "mood_based", none⟩,
  ⟨"b1", 1, none, "B", 0, some true, "mood_based", none⟩,
  ⟨"b2", 1, none, "B", 0, some false, "mood_based", none⟩,
  ⟨"c1", 1, none, "C", 0, some false, "mood_based", none⟩,
  ⟨"c2", 1, none, "C", 0, some false, "mood_based", none⟩]

/-- C5 counterexample: on `cx9`, `least_helpful_activities` is the tail of
the descending sort — rates 200/3, 50, 0 — i.e. the 3 lowest-rated
qualifying activities in *descending*, not ascending, rate order. -/
theorem least_helpful_order_counterexample :
    least_helpful_activities cx9 =
      [⟨"D", 200 / 3, 3⟩, ⟨"B", 50, 2⟩, ⟨"C", 0, 2⟩] ∧
    ¬ List.Pairwise (fun a b : ActivityRate => a.rate ≤ b.rate)
        (least_helpful_activities cx9) := by
  have hkeys : activityKeys cx9 = ["A", "D", "B", "C"] := by decide
  have hrates : activity_rates cx9 =
      [⟨"A", 100, 2⟩, ⟨"D", 200 / 3, 3⟩, ⟨"B", 50, 2⟩, ⟨"C", 0, 2⟩] := by
    unfold activity_rates
    rw [hkeys]
    norm_num +decide [cx9, List.filterMap_cons]
  have hsorted : sorted_activity_rates cx9 =
      [⟨"A", 100, 2⟩, ⟨"D", 200 / 3, 3⟩, ⟨"B", 50, 2⟩, ⟨"C", 0, 2⟩] := by
    unfold sorted_activity_rates
    rw [hrates]
    norm_num [List.mergeSort]
  have h : least_helpful_activities cx9 =
      [⟨"D", 200 / 3, 3⟩, ⟨"B", 50, 2⟩, ⟨"C", 0, 2⟩] := by
    unfold least_helpful_activities
    dsimp only
    rw [hsorted]
    norm_num
  refine ⟨h, ?_⟩
  rw [h]
  intro hp
  have h1 := List.rel_of_pairwise_cons hp (List.mem_cons_self _ _)
  norm_num at h1

/-- C5 witness: on `cx9` four activities qualify, so the least-helpful list
has exactly 3 entries. -/
theorem feedback_breakdown_ranking_witness :
    (least_helpful_activities cx9).length = 3 :=
  (feedback_breakdown_ranking cx9).2.2.2.2.2.2.2.2 (by decide)

end Auralys
